import Mathlib

/-!
Verification development for a Telegram group-management bot
(management console + webhook dispatch engine).

The TypeScript sources are shallowly embedded as pure Lean functions:

* message texts and identifier strings are `List Char`;
* the persistent store is a `DbState` record of row lists;
* the in-memory TTL cache of `server/bot.ts` is a `CacheState` record;
* every handler returns an `Effects` record listing the outbound
  messages, the activity-log rows written, the platform RPC calls
  performed and the usage-counter increments issued;
* platform responses that the handlers consume (the sender's
  chat-member status, username resolution, administrator lists) are
  inputs to the handler functions;
* JavaScript regexes used by the handlers are modelled by explicit
  scanning functions over `List Char` with the same first-match,
  greedy semantics (ASCII character classes).

Timestamps are milliseconds since the epoch as `Nat`.
-/

namespace TgBot

/-! ### Basic enumerations (from shared/schema.ts and the Telegram API) -/

inductive TriggerType where
  | direct
  | reply
deriving DecidableEq, Repr

/-- The action-type enumeration of the commands table (shared/schema.ts). -/
inductive ActionType where
  | pin_message
  | unpin_message
  | unpin_all_messages
  | set_title
  | remove_title
  | mute
  | unmute
  | kick
  | ban
  | delete_message
  | create_invite_link
  | set_group_name
  | set_group_description
  | delete_group_description
  | show_admins
  | show_group_info
deriving DecidableEq, Repr

/-- Telegram chat-member statuses used by the bot. -/
inductive MemberStatus where
  | creator
  | administrator
  | member
  | restricted
  | left
  | kicked
deriving DecidableEq, Repr

inductive ChatType where
  | group
  | supergroup
  | channel
  | privateChat
deriving DecidableEq, Repr

inductive LogStatus where
  | success
  | error
deriving DecidableEq, Repr

/-! ### Database rows (shared/schema.ts) -/

/-- A row of the `commands` table. Row ids are modelled as `Nat`. -/
structure Command where
  id : Nat
  name : List Char
  triggerType : TriggerType
  actionType : ActionType
  description : Option (List Char)
  isEnabled : Bool
  usageCount : Nat
  createdAt : Nat
  updatedAt : Nat
deriving DecidableEq, Repr

/-- A row of the `group_whitelist` table. -/
structure GroupWhitelist where
  id : Nat
  groupId : List Char
  groupTitle : Option (List Char)
  memberCount : Option Nat
  isActive : Bool
  addedAt : Nat
deriving DecidableEq, Repr

/-- A row of the `activity_logs` table. -/
structure ActivityLog where
  action : List Char
  details : List Char
  userName : Option (List Char)
  groupId : Option (List Char)
  groupTitle : Option (List Char)
  targetUserName : Option (List Char)
  status : LogStatus
  timestamp : Nat
deriving DecidableEq, Repr

/-- The single `bot_config` row. -/
structure BotConfigRow where
  token : List Char
  username : Option (List Char)
  botId : Option (List Char)
  isActive : Bool
  lastRestart : Option Nat
  updatedAt : Nat
deriving DecidableEq, Repr

/-- The persistent store, one list per table. -/
structure DbState where
  config : Option BotConfigRow
  groups : List GroupWhitelist
  commands : List Command
  logs : List ActivityLog
deriving DecidableEq, Repr

/-! ### Telegram update payloads -/

structure UserInfo where
  id : Nat
  username : Option (List Char)
  firstName : List Char
  isBot : Bool
deriving DecidableEq, Repr

/-- The message a text message replies to, when present. -/
structure ReplyInfo where
  messageId : Nat
  fromUser : Option UserInfo
deriving DecidableEq, Repr

inductive MessageEntity where
  | textMention (user : UserInfo) (offset length : Nat)
  | mention (offset length : Nat)
  | other
deriving DecidableEq, Repr

structure IncomingMessage where
  chatId : List Char
  chatType : ChatType
  chatTitle : Option (List Char)
  text : List Char
  replyTo : Option ReplyInfo
  fromUser : UserInfo
  entities : List MessageEntity
deriving DecidableEq, Repr

structure InviteLinkInfo where
  name : Option (List Char)
  creator : Option UserInfo
deriving DecidableEq, Repr

/-- A `chat_member` update: a membership transition in a chat. -/
structure ChatMemberUpdate where
  chatId : List Char
  chatTitle : Option (List Char)
  oldStatus : MemberStatus
  newStatus : MemberStatus
  inviteLink : Option InviteLinkInfo
  member : UserInfo
  actor : UserInfo
deriving DecidableEq, Repr

/-! ### JavaScript string helpers -/

/-- JS `a || b` on an optional string: an absent or empty string is falsy. -/
def jsFalsyOr (a : Option (List Char)) (b : List Char) : List Char :=
  match a with
  | some s => if s.isEmpty then b else s
  | none => b

/-- Model of `user.username ? "@" + user.username : user.first_name`. -/
def displayName (u : UserInfo) : List Char :=
  match u.username with
  | some s => if s.isEmpty then u.firstName else '@' :: s
  | none => u.firstName

/-- Model of `"@" + (user.username || user.first_name)`. -/
def atName (u : UserInfo) : List Char :=
  '@' :: jsFalsyOr u.username u.firstName

/-- JS regex class `\d` (ASCII digits). -/
def jsIsDigit (c : Char) : Bool :=
  decide ('0' ≤ c) && decide (c ≤ '9')

/-- JS regex class `\s` (whitespace; ASCII subset modelled). -/
def jsIsSpace (c : Char) : Bool :=
  c == ' ' || c == '\t' || c == '\n' || c == '\r' || c == '\x0b' || c == '\x0c'

/-- JS regex class `\w` = `[A-Za-z0-9_]`. -/
def jsIsWordChar (c : Char) : Bool :=
  (decide ('A' ≤ c) && decide (c ≤ 'Z')) ||
  (decide ('a' ≤ c) && decide (c ≤ 'z')) ||
  jsIsDigit c || c == '_'

/-- A JS line terminator for the regex class `.` (which excludes them). -/
def jsIsNewline (c : Char) : Bool :=
  c == '\n' || c == '\r'

/-- JS `String.prototype.trim`. -/
def jsTrim (l : List Char) : List Char :=
  ((l.dropWhile jsIsSpace).reverse.dropWhile jsIsSpace).reverse

/-- Decimal digits to a number, as JS `parseInt` on a digit-only capture. -/
def digitsToNat (l : List Char) : Nat :=
  l.foldl (fun acc c => acc * 10 + (c.toNat - '0'.toNat)) 0

/-- Decimal rendering of a number, as JS number-to-string interpolation. -/
def natToChars (n : Nat) : List Char :=
  Nat.toDigits 10 n

/-! ### Regex models

Each JS regex used by the bot is modelled by a scanner that tries a
local match at every start position, left to right, returning the
first success - exactly the JS `String.prototype.match` discipline. -/

/-- Try a local match at every suffix, left to right; first success wins. -/
def scanMatch {α : Type} (m : List Char → Option α) : List Char → Option α
  | [] => m []
  | c :: rest =>
    match m (c :: rest) with
    | some r => some r
    | none => scanMatch m rest

/-- Match a literal, then hand the remainder to a continuation. -/
def matchLiteralThen {α : Type} (pat : List Char) (k : List Char → Option α)
    (l : List Char) : Option α :=
  if pat.isPrefixOf l then k (l.drop pat.length) else none

/-- Local match for `/(\d+)\s+(\d+)/`: a digit run, a whitespace run,
a digit run, all greedy (greediness is exact here because the classes
are disjoint). Returns the two captures. -/
def matchDigitPairAt (l : List Char) : Option (List Char × List Char) :=
  let d1 := l.takeWhile jsIsDigit
  if d1.isEmpty then none else
  let r1 := l.drop d1.length
  let s1 := r1.takeWhile jsIsSpace
  if s1.isEmpty then none else
  let r2 := r1.drop s1.length
  let d2 := r2.takeWhile jsIsDigit
  if d2.isEmpty then none else some (d1, d2)

/-- Model of `text.match(/(\d+)\s+(\d+)/)` - the create_invite_link parameter regex. -/
def findDigitPair (text : List Char) : Option (List Char × List Char) :=
  scanMatch matchDigitPairAt text

/-- Local match for `/(@\w+)创建/`: an `@`, a word-character run, then
the literal `创建`. Returns the `@`-prefixed capture. -/
def matchCreatorTagAt (l : List Char) : Option (List Char) :=
  match l with
  | '@' :: rest =>
    let w := rest.takeWhile jsIsWordChar
    if w.isEmpty then none
    else if ('创' :: '建' :: []).isPrefixOf (rest.drop w.length) then some ('@' :: w)
    else none
  | _ => none

/-- Model of `inviteLink.name.match(/(@\w+)创建/)` - the invite-link annotation regex. -/
def findCreatorTag (text : List Char) : Option (List Char) :=
  scanMatch matchCreatorTagAt text

/-- Model of `\s*(.+)` continuation: greedily skip whitespace, then capture the
rest of the line (backtracking into the whitespace run when nothing
follows it, as the JS engine does, since `.` matches a blank). -/
def wsStarDotPlus (l : List Char) : Option (List Char) :=
  let run := l.takeWhile jsIsSpace
  let rest := l.drop run.length
  match rest with
  | [] =>
    match run.reverse.dropWhile jsIsNewline with
    | [] => none
    | c :: _ => some [c]
  | c :: _ =>
    if jsIsNewline c then none
    else some (rest.takeWhile (fun x => !jsIsNewline x))

/-- Model of `\s+(.+)` continuation: at least one whitespace, then the rest of
the line (backtracking keeps at least one whitespace matched). -/
def wsPlusDotPlus (l : List Char) : Option (List Char) :=
  let run := l.takeWhile jsIsSpace
  if run.isEmpty then none else
  let rest := l.drop run.length
  match rest with
  | [] =>
    match (run.drop 1).reverse.dropWhile jsIsNewline with
    | [] => none
    | c :: _ => some [c]
  | c :: _ =>
    if jsIsNewline c then none
    else some (rest.takeWhile (fun x => !jsIsNewline x))

/-- Model of `\s*(\d+)` continuation (no backtracking can help here). -/
def wsStarDigits (l : List Char) : Option (List Char) :=
  let rest := l.dropWhile jsIsSpace
  let d := rest.takeWhile jsIsDigit
  if d.isEmpty then none else some d

/-- Model of `text.match(/设置头衔\s*(.+)/)` then `.trim()`, default `成员`
(the set_title argument rule). -/
def setTitleArg (text : List Char) : List Char :=
  match scanMatch (matchLiteralThen "设置头衔".data wsStarDotPlus) text with
  | some cap => jsTrim cap
  | none => "成员".data

/-- Model of `text.match(/禁言\s*(\d+)/)`, default 60 minutes (the mute duration rule). -/
def muteMinutesArg (text : List Char) : Nat :=
  match scanMatch (matchLiteralThen "禁言".data wsStarDigits) text with
  | some d => digitsToNat d
  | none => 60

/-- Model of `text.match(new RegExp(escapedName + "\\s+(.+)"))` then `.trim()`,
default empty (set_group_name / set_group_description argument rule;
the source escapes the name so the regex matches it literally). -/
def afterNameArg (name : List Char) (text : List Char) : List Char :=
  match scanMatch (matchLiteralThen name wsPlusDotPlus) text with
  | some cap => jsTrim cap
  | none => []

/-! ### Storage operations (server/storage.ts) -/

/-- The ordering used by `getAllCommands`: `ORDER BY created_at DESC`. -/
def cmdOrder (a b : Command) : Prop :=
  b.createdAt ≤ a.createdAt

instance : DecidableRel cmdOrder := fun a b => Nat.decLe b.createdAt a.createdAt

instance : IsTotal Command cmdOrder :=
  ⟨fun a b => Nat.le_total b.createdAt a.createdAt⟩

instance : IsTrans Command cmdOrder :=
  ⟨fun _ _ _ hab hbc => Nat.le_trans hbc hab⟩

/-- The ordering used by `getAllGroups`: `ORDER BY added_at DESC`. -/
def groupOrder (a b : GroupWhitelist) : Prop :=
  b.addedAt ≤ a.addedAt

instance : DecidableRel groupOrder := fun a b => Nat.decLe b.addedAt a.addedAt

/-- Model of `DatabaseStorage.getAllCommands`: all rows, newest creation first. -/
def dbGetAllCommands (db : DbState) : List Command :=
  db.commands.insertionSort cmdOrder

/-- Model of `DatabaseStorage.getAllGroups`: all rows, newest first. -/
def dbGetAllGroups (db : DbState) : List GroupWhitelist :=
  db.groups.insertionSort groupOrder

/-- Model of `DatabaseStorage.getGroupByGroupId`. -/
def dbGetGroupByGroupId (db : DbState) (gid : List Char) : Option GroupWhitelist :=
  db.groups.find? (fun g => decide (g.groupId = gid))

/-- Model of `DatabaseStorage.createLog` (timestamp filled by the insert default). -/
def dbCreateLog (db : DbState) (e : ActivityLog) : DbState :=
  { db with logs := db.logs ++ [e] }

/-- Model of `DatabaseStorage.incrementCommandUsage`: atomic `usage_count + 1`. -/
def dbIncrementCommandUsage (db : DbState) (id : Nat) : DbState :=
  { db with
    commands := db.commands.map
      (fun c => if c.id = id then { c with usageCount := c.usageCount + 1 } else c) }

/-- Model of `DatabaseStorage.deleteGroup`. -/
def dbDeleteGroup (db : DbState) (id : Nat) : DbState :=
  { db with groups := db.groups.filter (fun g => !decide (g.id = id)) }

/-- Milliseconds per day. -/
def msPerDay : Nat := 24 * 60 * 60 * 1000

/-- Model of `DatabaseStorage.cleanOldLogs`: bulk `DELETE WHERE timestamp < cutoff`
with `cutoff = now - daysToKeep days`. Note the delete has no groupId
filter. Returns the new state and the deleted-row count. -/
def cleanOldLogs (db : DbState) (now : Nat) (daysToKeep : Nat) : DbState × Nat :=
  let cutoff := now - daysToKeep * msPerDay
  let kept := db.logs.filter (fun l => !decide (l.timestamp < cutoff))
  let deleted := db.logs.filter (fun l => decide (l.timestamp < cutoff))
  ({ db with logs := kept }, deleted.length)

/-- Modelled from the spec: `storage.deleteAllGroupLogs`, whose
implementation is not among the sources (only its caller in
server/routes.ts is). Per the spec it bulk-deletes all group-scoped
log rows - those with a non-null groupId - and returns the count. -/
def dbDeleteAllGroupLogs (db : DbState) : DbState × Nat :=
  let kept := db.logs.filter (fun l => l.groupId.isNone)
  let deleted := db.logs.filter (fun l => !l.groupId.isNone)
  ({ db with logs := kept }, deleted.length)

/-! ### The in-memory cache (server/bot.ts) -/

/-- One entry of the whitelist cache `Map`. -/
structure WhitelistCacheEntry where
  key : List Char
  data : GroupWhitelist
  expireAt : Nat
deriving DecidableEq, Repr

/-- The module-level cache state of server/bot.ts. -/
structure CacheState where
  whitelist : List WhitelistCacheEntry
  commandsCache : Option (List Command × Nat)
deriving DecidableEq, Repr

/-- Model of `CACHE_TTL`: 30 minutes in milliseconds. -/
def CACHE_TTL : Nat := 30 * 60 * 1000

/-- Model of `clearCache`: wholesale invalidation of both maps. Exported by the
source but - see the configuration-change theorems - never invoked. -/
def clearCache (_cache : CacheState) : CacheState :=
  { whitelist := [], commandsCache := none }

/-- Model of `getWhitelistedGroup`: read-through lookup. A fresh cache entry is
served; otherwise the store is queried, a hit repopulates the cache and
a miss removes the key (negative results are not cached). -/
def getWhitelistedGroup (cache : CacheState) (db : DbState) (now : Nat)
    (gid : List Char) : Option GroupWhitelist × CacheState :=
  let cached := cache.whitelist.find? (fun e => decide (e.key = gid))
  match cached with
  | some e =>
    if now < e.expireAt then (some e.data, cache)
    else refresh
  | none => refresh
where
  refresh : Option GroupWhitelist × CacheState :=
    match dbGetGroupByGroupId db gid with
    | some g =>
      (some g,
       { cache with whitelist :=
           ⟨gid, g, now + CACHE_TTL⟩ :: cache.whitelist.filter (fun e => !decide (e.key = gid)) })
    | none =>
      (none, { cache with whitelist := cache.whitelist.filter (fun e => !decide (e.key = gid)) })

/-- Model of `getAllCommands` (cached wrapper in server/bot.ts). -/
def getAllCommandsCached (cache : CacheState) (db : DbState) (now : Nat) :
    List Command × CacheState :=
  match cache.commandsCache with
  | some (data, expireAt) =>
    if now < expireAt then (data, cache)
    else
      let cmds := dbGetAllCommands db
      (cmds, { cache with commandsCache := some (cmds, now + CACHE_TTL) })
  | none =>
    let cmds := dbGetAllCommands db
    (cmds, { cache with commandsCache := some (cmds, now + CACHE_TTL) })

/-! ### The command matcher -/

/-- The candidate predicate of the matcher: enabled, in the trigger
partition selected by the reply flag, and the command name is a prefix
of the message text (`messageText.startsWith(cmd.name)`). -/
def matchesCmd (hasReply : Bool) (text : List Char) (c : Command) : Bool :=
  c.isEnabled &&
  decide (c.triggerType = if hasReply then TriggerType.reply else TriggerType.direct) &&
  c.name.isPrefixOf text

/-- The matcher of the text handler: `allCommands.find(...)` within the
trigger partition selected by the reply flag. -/
def findMatchingCommand (cmds : List Command) (text : List Char)
    (hasReply : Bool) : Option Command :=
  if hasReply then
    cmds.find? (fun c =>
      c.isEnabled && decide (c.triggerType = TriggerType.reply) && c.name.isPrefixOf text)
  else
    cmds.find? (fun c =>
      c.isEnabled && decide (c.triggerType = TriggerType.direct) && c.name.isPrefixOf text)

theorem findMatchingCommand_eq_find (cmds : List Command) (text : List Char)
    (hasReply : Bool) :
    findMatchingCommand cmds text hasReply = cmds.find? (matchesCmd hasReply text) := by
  cases hasReply <;> rfl

/-! ### Observable effects of one update -/

/-- An outbound message to the originating chat. The invite-link
announcement embeds a platform-generated link, so it is kept symbolic
in its platform-independent parts. -/
inductive ReplyMsg where
  | text (s : List Char)
  | inviteLinkAnnouncement (memberLimit expireMinutes : Nat) (creatorName : List Char)
deriving DecidableEq, Repr

/-- A mutating or querying platform RPC issued by an action handler. -/
inductive PlatformCall where
  | pinMessage (messageId : Nat)
  | unpinMessage (messageId : Nat)
  | setAdminTitle (userId : Nat) (title : List Char)
  | restrictMember (userId : Nat) (canSend : Bool) (untilDate : Nat)
  | banMember (userId : Nat)
  | unbanMember (userId : Nat)
  | deleteMessage (messageId : Nat)
  | unpinAll
  | createInviteLink (memberLimit expireDate : Nat) (name : List Char)
  | setChatTitle (t : List Char)
  | setChatDescription (d : List Char)
  | getChatAdmins
  | getChat
deriving DecidableEq, Repr

/-- Everything one update handling emits: chat replies, activity-log
rows, platform calls, and usage-counter increments (by command id). -/
structure Effects where
  replies : List ReplyMsg
  logs : List ActivityLog
  calls : List PlatformCall
  increments : List Nat
deriving DecidableEq, Repr

def Effects.empty : Effects :=
  { replies := [], logs := [], calls := [], increments := [] }

/-- A member of the administrator list returned by the platform. -/
structure ChatMemberInfo where
  user : UserInfo
  status : MemberStatus
  customTitle : Option (List Char)
deriving DecidableEq, Repr

/-- Platform responses consumed inside the direct-command handlers:
`getChat("@username")` resolution, `getChatAdministrators`, `getChat`. -/
structure PlatformEnv where
  resolveUsername : List Char → Option Nat
  admins : List ChatMemberInfo
  chatTitle : Option (List Char)
  chatDescription : Option (List Char)

/-- Duration formatting shared by the mute and invite-link handlers:
`N小时M分钟` when at least an hour, else `N分钟`. -/
def durationText (minutes : Nat) : List Char :=
  if 60 ≤ minutes then
    natToChars (minutes / 60) ++ "小时".data ++
      (if 0 < minutes % 60 then natToChars (minutes % 60) ++ "分钟".data else [])
  else
    natToChars minutes ++ "分钟".data

/-! ### The reply-command dispatcher (handleReplyCommand) -/

/-- Build the activity-log row the reply dispatcher writes: action is
the command name, userName the acting admin, target the replied-to
user when present. -/
def replyCmdLog (now : Nat) (msg : IncomingMessage) (cmd : Command)
    (rep : ReplyInfo) (details : List Char) (status : LogStatus) : ActivityLog :=
  { action := cmd.name
    details := details
    userName := some (atName msg.fromUser)
    groupId := some msg.chatId
    groupTitle := msg.chatTitle
    targetUserName := rep.fromUser.map atName
    status := status
    timestamp := now }

/-- Model of `handleReplyCommand`, happy path (all platform RPCs succeed). Each
case mirrors the corresponding `switch` case of server/bot.ts; cases
that require a replied-to sender do nothing when the replied-to message
has no `from` user, and action types not in the switch fall through to
no effect. -/
def handleReplyCommand (now : Nat) (msg : IncomingMessage) (cmd : Command) : Effects :=
  match msg.replyTo with
  | none => Effects.empty
  | some rep =>
    match cmd.actionType with
    | ActionType.pin_message =>
      { Effects.empty with
        calls := [PlatformCall.pinMessage rep.messageId]
        logs := [replyCmdLog now msg cmd rep
          ("📌 置顶消息 | 消息ID: ".data ++ natToChars rep.messageId) LogStatus.success] }
    | ActionType.unpin_message =>
      { Effects.empty with
        calls := [PlatformCall.unpinMessage rep.messageId]
        replies := [ReplyMsg.text "✅ 消息已取消置顶".data]
        logs := [replyCmdLog now msg cmd rep
          ("📌 取消置顶 | 消息ID: ".data ++ natToChars rep.messageId) LogStatus.success] }
    | ActionType.set_title =>
      match rep.fromUser with
      | some tu =>
        let customTitle := setTitleArg msg.text
        { Effects.empty with
          calls := [PlatformCall.setAdminTitle tu.id customTitle]
          replies := [ReplyMsg.text ("✅ 头衔已设置为 \"".data ++ customTitle ++ "\"".data)]
          logs := [replyCmdLog now msg cmd rep
            ("👤 设置用户头衔 | 头衔内容: \"".data ++ customTitle ++ "\"".data)
            LogStatus.success] }
      | none => Effects.empty
    | ActionType.remove_title =>
      match rep.fromUser with
      | some tu =>
        { Effects.empty with
          calls := [PlatformCall.setAdminTitle tu.id []]
          replies := [ReplyMsg.text "✅ 用户头衔已删除".data]
          logs := [replyCmdLog now msg cmd rep
            "👤 删除用户头衔 | 已清除用户的自定义头衔".data LogStatus.success] }
      | none => Effects.empty
    | ActionType.mute =>
      match rep.fromUser with
      | some tu =>
        let muteMinutes := muteMinutesArg msg.text
        let untilDate := now / 1000 + muteMinutes * 60
        { Effects.empty with
          calls := [PlatformCall.restrictMember tu.id false untilDate]
          logs := [replyCmdLog now msg cmd rep
            ("🔇 禁言用户 | 禁言时长: ".data ++ durationText muteMinutes)
            LogStatus.success] }
      | none => Effects.empty
    | ActionType.unmute =>
      match rep.fromUser with
      | some tu =>
        { Effects.empty with
          calls := [PlatformCall.restrictMember tu.id true (now / 1000 + 30)]
          replies := [ReplyMsg.text "✅ 已解除用户禁言".data]
          logs := [replyCmdLog now msg cmd rep
            "🔊 解除禁言 | 用户已恢复发言权限".data LogStatus.success] }
      | none => Effects.empty
    | ActionType.kick =>
      match rep.fromUser with
      | some tu =>
        { Effects.empty with
          calls := [PlatformCall.banMember tu.id, PlatformCall.unbanMember tu.id]
          logs := [replyCmdLog now msg cmd rep
            "👢 踢出用户 | 用户已被移出群组".data LogStatus.success] }
      | none => Effects.empty
    | ActionType.ban =>
      match rep.fromUser with
      | some tu =>
        { Effects.empty with
          calls := [PlatformCall.banMember tu.id]
          logs := [replyCmdLog now msg cmd rep
            "🚫 封禁用户 | 用户已被永久封禁".data LogStatus.success] }
      | none => Effects.empty
    | ActionType.delete_message =>
      { Effects.empty with
        calls := [PlatformCall.deleteMessage rep.messageId]
        logs := [replyCmdLog now msg cmd rep
          ("🗑️ 删除消息 | 消息ID: ".data ++ natToChars rep.messageId) LogStatus.success] }
    | _ => Effects.empty

/-! ### The direct-command dispatcher (handleDirectCommand) -/

/-- Build the activity-log row the direct dispatcher writes. -/
def directCmdLog (now : Nat) (msg : IncomingMessage) (cmd : Command)
    (details : List Char) (target : Option (List Char)) (status : LogStatus) :
    ActivityLog :=
  { action := cmd.name
    details := details
    userName := some (atName msg.fromUser)
    groupId := some msg.chatId
    groupTitle := msg.chatTitle
    targetUserName := target
    status := status
    timestamp := now }

/-- The usage-format reply of create_invite_link when the two required
integers are missing. -/
def inviteUsageText (name : List Char) : List Char :=
  "❌ 请提供人数和时间参数\n\n格式：".data ++ name ++ " 人数 时长(分钟)\n示例：".data ++
    name ++ " 10 5\n（创建10人5分钟有效的邀请链接）".data

/-- The usage-format reply of set_group_name when the new name is missing. -/
def groupNameUsageText (name : List Char) : List Char :=
  "❌ 请提供群组名称\n\n格式：".data ++ name ++ " 新群名\n示例：".data ++
    name ++ " 我的超级群组".data

/-- The usage-format reply of set_group_description when the text is missing. -/
def groupDescUsageText (name : List Char) : List Char :=
  "❌ 请提供群组简介内容\n\n格式：".data ++ name ++ " 简介内容\n示例：".data ++
    name ++ " 这是一个技术交流群".data

/-- The reply sent when an `@username` mention cannot be resolved. -/
def cannotFindUserText (username : List Char) : List Char :=
  "❌ 无法通过 @".data ++ username ++
    " 找到用户\n\n💡 建议使用回复方式：\n1. 找到该用户的任意一条消息\n2. 回复该消息\n3. 输入解除禁言指令".data

/-- The reply sent when a direct unmute carries no usable mention. -/
def unmuteUsageText : List Char :=
  "❌ 请使用以下方式之一解除禁言：\n\n方式1（推荐）：\n• 回复被禁言用户的消息\n• 输入解除禁言指令\n\n方式2：\n• 点击用户头像选择用户\n• 在消息中 @ 提及该用户\n• 输入解除禁言指令".data

/-- JS `mentionText.replace("@", "")`: remove the first `@` only. -/
def removeFirstAt : List Char → List Char
  | [] => []
  | c :: rest => if c = '@' then rest else c :: removeFirstAt rest

/-- The administrator-list message built by show_admins from the
platform's administrator list, excluding bot accounts. -/
def showAdminsText (admins : List ChatMemberInfo) : List Char :=
  let creator := admins.find? (fun a => decide (a.status = MemberStatus.creator) && !a.user.isBot)
  let adminList := admins.filter (fun a => decide (a.status = MemberStatus.administrator) && !a.user.isBot)
  let titlePart := fun (a : ChatMemberInfo) =>
    match a.customTitle with
    | some t => if t.isEmpty then [] else " | 头衔: ".data ++ t
    | none => []
  let creatorPart :=
    match creator with
    | some c => "创建者：".data ++ displayName c.user ++ titlePart c ++ "\n\n".data
    | none => []
  let adminsPart :=
    if adminList.isEmpty then "暂无其他管理员\n".data
    else
      "管理员：\n".data ++
        (adminList.enum.foldr
          (fun p acc =>
            natToChars (p.1 + 1) ++ ". ".data ++ displayName p.2.user ++ titlePart p.2 ++
              "\n".data ++ acc)
          [])
  "群组管理员列表\n\n".data ++ creatorPart ++ adminsPart

/-- The group-info message built by show_group_info from the platform's
chat record (an absent or empty description reads `暂无简介`). -/
def showGroupInfoText (title : Option (List Char)) (description : Option (List Char)) :
    List Char :=
  let titlePart :=
    match title with
    | some t => "群组名称：".data ++ t ++ "\n\n".data
    | none => []
  let descPart :=
    match description with
    | some d => if d.isEmpty then "群组简介：暂无简介".data else "群组简介：\n".data ++ d
    | none => "群组简介：暂无简介".data
  "群组信息\n\n".data ++ titlePart ++ descPart

/-- Model of `handleDirectCommand`, happy path. Each case mirrors the
corresponding `switch` case of server/bot.ts. -/
def handleDirectCommand (now : Nat) (env : PlatformEnv) (msg : IncomingMessage)
    (cmd : Command) : Effects :=
  match cmd.actionType with
  | ActionType.unpin_all_messages =>
    { Effects.empty with
      calls := [PlatformCall.unpinAll]
      replies := [ReplyMsg.text "✅ 已取消群组所有置顶消息".data]
      logs := [directCmdLog now msg cmd
        "📌 取消全部置顶 | 已取消群组所有置顶消息".data none LogStatus.success] }
  | ActionType.create_invite_link =>
    match findDigitPair msg.text with
    | none =>
      { Effects.empty with replies := [ReplyMsg.text (inviteUsageText cmd.name)] }
    | some (d1, d2) =>
      let memberLimit := digitsToNat d1
      let expireMinutes := digitsToNat d2
      let expireDate := now / 1000 + expireMinutes * 60
      let creatorName := jsFalsyOr msg.fromUser.username msg.fromUser.firstName
      let linkName := '@' :: creatorName ++ "创建".data
      { Effects.empty with
        calls := [PlatformCall.createInviteLink memberLimit expireDate linkName]
        replies := [ReplyMsg.inviteLinkAnnouncement memberLimit expireMinutes creatorName]
        logs := [directCmdLog now msg cmd
          ("🔗 创建邀请链接 | 人数: ".data ++ natToChars memberLimit ++ "人 | 有效期: ".data ++
            durationText expireMinutes ++ " | 创建人: @".data ++ creatorName)
          none LogStatus.success] }
  | ActionType.set_group_name =>
    let newName := afterNameArg cmd.name msg.text
    if newName.isEmpty then
      { Effects.empty with replies := [ReplyMsg.text (groupNameUsageText cmd.name)] }
    else
      { Effects.empty with
        calls := [PlatformCall.setChatTitle newName]
        replies := [ReplyMsg.text ("✅ 群组名称已修改为 \"".data ++ newName ++ "\"".data)]
        logs := [directCmdLog now msg cmd
          ("✏️ 修改群组名称 | 新名称: \"".data ++ newName ++ "\"".data)
          none LogStatus.success] }
  | ActionType.set_group_description =>
    let newDesc := afterNameArg cmd.name msg.text
    if newDesc.isEmpty then
      { Effects.empty with replies := [ReplyMsg.text (groupDescUsageText cmd.name)] }
    else
      { Effects.empty with
        calls := [PlatformCall.setChatDescription newDesc]
        replies := [ReplyMsg.text ("✅ 群组简介已设置\n\n".data ++ newDesc)]
        logs := [directCmdLog now msg cmd
          ("📝 修改群组简介 | 简介内容: \"".data ++
            (newDesc.take 50 ++ (if 50 < newDesc.length then "...".data else [])) ++ "\"".data)
          none LogStatus.success] }
  | ActionType.delete_group_description =>
    { Effects.empty with
      calls := [PlatformCall.setChatDescription " ".data]
      replies := [ReplyMsg.text "✅ 群组简介已删除".data]
      logs := [directCmdLog now msg cmd
        "📝 删除群组简介 | 已清空群组简介内容".data none LogStatus.success] }
  | ActionType.unmute =>
    let textMentionUser := msg.entities.findSome?
      (fun e => match e with
        | MessageEntity.textMention u _ _ => some u
        | _ => none)
    match textMentionUser with
    | some u =>
      let uname := '@' :: jsFalsyOr u.username u.firstName
      { Effects.empty with
        calls := [PlatformCall.restrictMember u.id true (now / 1000 + 30)]
        replies := [ReplyMsg.text ("✅ 已解除 ".data ++ uname ++ " 的禁言".data)]
        logs := [directCmdLog now msg cmd
          "🔊 解除禁言 | 用户已恢复发言权限".data (some uname) LogStatus.success] }
    | none =>
      match msg.entities.findSome?
        (fun e => match e with
          | MessageEntity.mention off len => some (off, len)
          | _ => none) with
      | some (off, len) =>
        let mentionText := (msg.text.drop off).take len
        let username := removeFirstAt mentionText
        match env.resolveUsername username with
        | some uid =>
          let uname := '@' :: username
          { Effects.empty with
            calls := [PlatformCall.restrictMember uid true (now / 1000 + 30)]
            replies := [ReplyMsg.text ("✅ 已解除 ".data ++ uname ++ " 的禁言".data)]
            logs := [directCmdLog now msg cmd
              "🔊 解除禁言 | 用户已恢复发言权限".data (some uname) LogStatus.success] }
        | none =>
          { Effects.empty with replies := [ReplyMsg.text (cannotFindUserText username)] }
      | none =>
        { Effects.empty with replies := [ReplyMsg.text unmuteUsageText] }
  | ActionType.show_admins =>
    let adminCount :=
      (env.admins.filter
        (fun a => decide (a.status = MemberStatus.administrator) && !a.user.isBot)).length
    { Effects.empty with
      calls := [PlatformCall.getChatAdmins]
      replies := [ReplyMsg.text (showAdminsText env.admins)]
      logs := [directCmdLog now msg cmd
        ("显示管理员列表 | 创建者1人 | 管理员".data ++ natToChars adminCount ++ "人".data)
        none LogStatus.success] }
  | ActionType.show_group_info =>
    { Effects.empty with
      calls := [PlatformCall.getChat]
      replies := [ReplyMsg.text (showGroupInfoText env.chatTitle env.chatDescription)]
      logs := [directCmdLog now msg cmd
        "显示群组信息 | 已发送群组名称和简介".data none LogStatus.success] }
  | _ => Effects.empty

/-! ### The text-message ingress (bot.on message text) -/

/-- The `/id` reply: chat id and title (an absent or empty title reads
`未知`); sent with an inline copy button not modelled beyond its text. -/
def idInfoText (chatId : List Char) (title : Option (List Char)) : List Char :=
  "📋 群组信息\n\n群组ID: <code>".data ++ chatId ++ "</code>\n群组名称: ".data ++
    jsFalsyOr title "未知".data

/-- The `/id` branch: replies only in groups and supergroups and only
to senders whose chat-member status is creator or administrator; it
consults no whitelist state. -/
def idHandlerEffects (msg : IncomingMessage) (senderStatus : MemberStatus) : Effects :=
  match msg.chatType with
  | ChatType.group =>
    if senderStatus = MemberStatus.creator ∨ senderStatus = MemberStatus.administrator then
      { Effects.empty with replies := [ReplyMsg.text (idInfoText msg.chatId msg.chatTitle)] }
    else Effects.empty
  | ChatType.supergroup =>
    if senderStatus = MemberStatus.creator ∨ senderStatus = MemberStatus.administrator then
      { Effects.empty with replies := [ReplyMsg.text (idInfoText msg.chatId msg.chatTitle)] }
    else Effects.empty
  | _ => Effects.empty

/-- The full text-message handler: the `/id` early exit, then the
whitelist gate (via the read-through cache), then the sender-status
gate (the status the platform reports is the `senderStatus` input),
then partition-respecting matching and dispatch. Returns the emitted
effects and the updated cache. -/
def textMessageHandler (db : DbState) (cache : CacheState) (now : Nat)
    (env : PlatformEnv) (msg : IncomingMessage) (senderStatus : MemberStatus) :
    Effects × CacheState :=
  if msg.text = "/id".data then
    (idHandlerEffects msg senderStatus, cache)
  else
    match getWhitelistedGroup cache db now msg.chatId with
    | (none, cache1) => (Effects.empty, cache1)
    | (some g, cache1) =>
      if g.isActive = false then (Effects.empty, cache1)
      else if senderStatus ≠ MemberStatus.creator ∧ senderStatus ≠ MemberStatus.administrator then
        (Effects.empty, cache1)
      else
        match getAllCommandsCached cache1 db now with
        | (cmds, cache2) =>
          match msg.replyTo with
          | some _ =>
            match findMatchingCommand cmds msg.text true with
            | some cmd => (handleReplyCommand now msg cmd, cache2)
            | none => (Effects.empty, cache2)
          | none =>
            match findMatchingCommand cmds msg.text false with
            | some cmd => (handleDirectCommand now env msg cmd, cache2)
            | none => (Effects.empty, cache2)

/-! ### The membership event handler (bot.on chat_member) -/

/-- The join classification of the handler:
`(left|kicked) → (member|administrator|creator)`. -/
def isJoiningB (oldStatus newStatus : MemberStatus) : Bool :=
  (decide (oldStatus = MemberStatus.left) || decide (oldStatus = MemberStatus.kicked)) &&
  (decide (newStatus = MemberStatus.member) || decide (newStatus = MemberStatus.administrator) ||
    decide (newStatus = MemberStatus.creator))

/-- The leave classification: `member → left`. -/
def isLeavingB (oldStatus newStatus : MemberStatus) : Bool :=
  decide (oldStatus = MemberStatus.member) && decide (newStatus = MemberStatus.left)

/-- The removal classification: `member → kicked`. -/
def isKickedB (oldStatus newStatus : MemberStatus) : Bool :=
  decide (oldStatus = MemberStatus.member) && decide (newStatus = MemberStatus.kicked)

/-- The inviter identity extracted from invite-link metadata: the
`(@\w+)创建` annotation capture when the link has a (non-empty) name,
else the link's creator, else `未知`. A named link whose annotation
does not match the marker also reads `未知` (the creator field is only
a fallback for unnamed links). -/
def extractCreatorInfo (il : InviteLinkInfo) : List Char :=
  let creatorFallback :=
    match il.creator with
    | some u => displayName u
    | none => "未知".data
  match il.name with
  | some n =>
    if n.isEmpty then creatorFallback
    else
      match findCreatorTag n with
      | some tag => tag
      | none => "未知".data
  | none => creatorFallback

/-- The welcome message sent on an invite-link join. -/
def welcomeText (memberName creatorInfo : List Char) : List Char :=
  "🎉 欢迎新成员！\n\n👤 ".data ++ memberName ++ " 通过 ".data ++ creatorInfo ++
    " 的邀请链接加入了群组".data

/-- The `chat_member` handler: whitelist gate (via the cache), then the
join/leave/removal classification with its log rows and the invite-link
welcome message. Any other transition emits nothing. -/
def chatMemberHandler (db : DbState) (cache : CacheState) (now : Nat)
    (upd : ChatMemberUpdate) : Effects × CacheState :=
  match getWhitelistedGroup cache db now upd.chatId with
  | (none, cache1) => (Effects.empty, cache1)
  | (some g, cache1) =>
    if g.isActive = false then (Effects.empty, cache1)
    else
      let memberName := displayName upd.member
      if isJoiningB upd.oldStatus upd.newStatus then
        match upd.inviteLink with
        | some il =>
          let creatorInfo := extractCreatorInfo il
          ({ Effects.empty with
             replies := [ReplyMsg.text (welcomeText memberName creatorInfo)]
             logs := [{ action := "成员加入".data
                        details := "👥 通过邀请链接加入 | 邀请人: ".data ++ creatorInfo
                        userName := some creatorInfo
                        groupId := some upd.chatId
                        groupTitle := upd.chatTitle
                        targetUserName := some memberName
                        status := LogStatus.success
                        timestamp := now }] }, cache1)
        | none =>
          ({ Effects.empty with
             logs := [{ action := "成员加入".data
                        details := "👥 新成员加入群组".data
                        userName := none
                        groupId := some upd.chatId
                        groupTitle := upd.chatTitle
                        targetUserName := some memberName
                        status := LogStatus.success
                        timestamp := now }] }, cache1)
      else if isLeavingB upd.oldStatus upd.newStatus then
        ({ Effects.empty with
           logs := [{ action := "成员退出".data
                      details := "👋 成员主动退出群组".data
                      userName := none
                      groupId := some upd.chatId
                      groupTitle := upd.chatTitle
                      targetUserName := some memberName
                      status := LogStatus.success
                      timestamp := now }] }, cache1)
      else if isKickedB upd.oldStatus upd.newStatus then
        ({ Effects.empty with
           logs := [{ action := "成员被移除".data
                      details := "🚫 成员被移除出群组".data
                      userName := some (displayName upd.actor)
                      groupId := some upd.chatId
                      groupTitle := upd.chatTitle
                      targetUserName := some memberName
                      status := LogStatus.success
                      timestamp := now }] }, cache1)
      else (Effects.empty, cache1)

/-! ### Lifecycle and the configuration route (startBot / stopBot /
POST /api/bot/config) -/

/-- The whole-process state: the store, the module-level cache of
server/bot.ts, and the live bot session (its token when running). -/
structure SystemState where
  db : DbState
  cache : CacheState
  bot : Option (List Char)
deriving Repr

/-- Model of `startBot`: tear down any live session, bind the token, upsert the
config row from the fetched bot identity, and write the system-scoped
startup log row. The cache is not touched. Webhook registration is a
platform call with no modelled state. -/
def startBot (token : List Char) (botInfo : UserInfo) (st : SystemState)
    (now : Nat) : SystemState :=
  let newCfg : BotConfigRow :=
    match st.db.config with
    | some c =>
      { c with
        token := token
        username := botInfo.username
        botId := some (natToChars botInfo.id)
        isActive := true
        lastRestart := some now
        updatedAt := now }
    | none =>
      { token := token
        username := botInfo.username
        botId := some (natToChars botInfo.id)
        isActive := true
        lastRestart := some now
        updatedAt := now }
  let db1 := { st.db with config := some newCfg }
  let db2 := dbCreateLog db1
    { action := "机器人启动".data
      details := "Bot @".data ++ jsFalsyOr botInfo.username [] ++ " 已成功启动".data
      userName := none
      groupId := none
      groupTitle := none
      targetUserName := none
      status := LogStatus.success
      timestamp := now }
  { st with db := db2, bot := some token }

/-- Model of `stopBot`: deregister the webhook (best-effort platform call) and
drop the in-memory session. The cache is not touched. -/
def stopBot (st : SystemState) : SystemState :=
  { st with bot := none }

/-- The `clearGroups` loop of the config route: delete every whitelist
row returned by `getAllGroups`, one `deleteGroup` per row. -/
def deleteGroupsLoop (gs : List GroupWhitelist) (db : DbState) : DbState :=
  gs.foldl (fun d g => dbDeleteGroup d g.id) db

/-- Model of `POST /api/bot/config`, happy path: stop, start with the new token,
then either clear the whitelist and all group-scoped logs (writing the
rotation log row) or keep them (writing the keep log row; the
activation notices are fire-and-forget sends, not modelled). Note that
`clearCache` is never invoked on this path. -/
def postBotConfig (token : List Char) (botInfo : UserInfo) (clearGroups : Bool)
    (st : SystemState) (now : Nat) : SystemState :=
  let st1 := stopBot st
  let st2 := startBot token botInfo st1 now
  if clearGroups then
    let groups := dbGetAllGroups st2.db
    let db3 := deleteGroupsLoop groups st2.db
    let cleared := dbDeleteAllGroupLogs db3
    let db5 := dbCreateLog cleared.1
      { action := "更换机器人Token".data
        details := "机器人已更新，已清空 ".data ++ natToChars groups.length ++
          " 个群组白名单，删除 ".data ++ natToChars cleared.2 ++ " 条群组日志".data
        userName := none
        groupId := none
        groupTitle := none
        targetUserName := none
        status := LogStatus.success
        timestamp := now }
    { st2 with db := db5 }
  else
    let groups := dbGetAllGroups st2.db
    let db3 := dbCreateLog st2.db
      { action := "更换机器人Token".data
        details := "机器人Token已更新，群组白名单已保留 (共".data ++
          natToChars groups.length ++ "个群组)".data
        userName := none
        groupId := none
        groupTitle := none
        targetUserName := none
        status := LogStatus.success
        timestamp := now }
    { st2 with db := db3 }

/-! ### Cache coherence and helper lemmas -/

/-- The cache agrees with the store: every cached whitelist entry is
the store's row for its key. This holds for an empty or freshly
repopulated cache; within a TTL window after a store update it can
fail, which the design accepts as bounded staleness. -/
def CacheCoherent (cache : CacheState) (db : DbState) : Prop :=
  ∀ e ∈ cache.whitelist, dbGetGroupByGroupId db e.key = some e.data

theorem getWhitelistedGroup_fst_of_coherent (cache : CacheState) (db : DbState)
    (now : Nat) (gid : List Char) (hcoh : CacheCoherent cache db) :
    (getWhitelistedGroup cache db now gid).1 = dbGetGroupByGroupId db gid := by
  unfold getWhitelistedGroup
  cases hfind : cache.whitelist.find? (fun e => decide (e.key = gid)) with
  | none =>
    unfold getWhitelistedGroup.refresh
    cases hdb : dbGetGroupByGroupId db gid <;> simp [hdb]
  | some e =>
    have hmem : e ∈ cache.whitelist := List.mem_of_find?_eq_some hfind
    have hkey : e.key = gid := by simpa using List.find?_some hfind
    have hdbe : dbGetGroupByGroupId db gid = some e.data := hkey ▸ hcoh e hmem
    by_cases hexp : now < e.expireAt
    · simp [hexp, hdbe]
    · unfold getWhitelistedGroup.refresh
      simp [hexp, hdbe]

/-- In a descending-`createdAt`-sorted list, the first element that
satisfies a predicate has the greatest `createdAt` among all elements
satisfying it. -/
theorem find?_sorted_createdAt_ge {l : List Command} {p : Command → Bool} {a : Command}
    (hs : List.Sorted cmdOrder l) (hf : l.find? p = some a) :
    ∀ b ∈ l, p b = true → b.createdAt ≤ a.createdAt := by
  induction l with
  | nil => simp at hf
  | cons x xs ih =>
    rw [List.sorted_cons] at hs
    intro b hb hpb
    by_cases hx : p x
    · rw [List.find?_cons_of_pos _ hx] at hf
      injection hf with h
      subst h
      rcases List.mem_cons.mp hb with rfl | hbxs
      · exact Nat.le_refl _
      · exact hs.1 b hbxs
    · rw [List.find?_cons_of_neg _ hx] at hf
      rcases List.mem_cons.mp hb with rfl | hbxs
      · exact absurd hpb (by simpa using hx)
      · exact ih hs.2 hf b hbxs hpb

theorem deleteGroupsLoop_logs (gs : List GroupWhitelist) (db : DbState) :
    (deleteGroupsLoop gs db).logs = db.logs := by
  induction gs generalizing db with
  | nil => rfl
  | cons g gs ih => simpa [deleteGroupsLoop, dbDeleteGroup] using ih _

theorem deleteGroupsLoop_groups_eq_nil (gs : List GroupWhitelist) (db : DbState)
    (h : ∀ g ∈ db.groups, ∃ g2 ∈ gs, g2.id = g.id) :
    (deleteGroupsLoop gs db).groups = [] := by
  induction gs generalizing db with
  | nil =>
    show db.groups = []
    rw [List.eq_nil_iff_forall_not_mem]
    intro g hg
    rcases h g hg with ⟨g2, hg2, _⟩
    exact absurd hg2 (List.not_mem_nil g2)
  | cons x xs ih =>
    show (deleteGroupsLoop xs (dbDeleteGroup db x.id)).groups = []
    apply ih
    intro g hg
    have hg2 : g ∈ db.groups ∧ ¬(g.id = x.id) := by
      simpa [dbDeleteGroup, List.mem_filter] using hg
    rcases h g hg2.1 with ⟨g2, hmem, hid⟩
    rcases List.mem_cons.mp hmem with rfl | hxs
    · exact absurd (hid ▸ hg2.2) (by simp)
    · exact ⟨g2, hxs, hid⟩

/-- Shared: a non-`/id` text message is a silent no-op whenever the
store (seen through a coherent cache) does not whitelist the chat as
active, or the sender is not creator/administrator. -/
theorem denied_text_silent_aux (db : DbState) (cache : CacheState) (now : Nat)
    (env : PlatformEnv) (msg : IncomingMessage) (senderStatus : MemberStatus)
    (hcoh : CacheCoherent cache db)
    (htext : msg.text ≠ "/id".data)
    (hden : dbGetGroupByGroupId db msg.chatId = none ∨
      (∃ g, dbGetGroupByGroupId db msg.chatId = some g ∧ g.isActive = false) ∨
      (senderStatus ≠ MemberStatus.creator ∧ senderStatus ≠ MemberStatus.administrator)) :
    (textMessageHandler db cache now env msg senderStatus).1 = Effects.empty := by
  have hfst := getWhitelistedGroup_fst_of_coherent cache db now msg.chatId hcoh
  unfold textMessageHandler
  rw [if_neg htext]
  rcases hpair : getWhitelistedGroup cache db now msg.chatId with ⟨o, cache1⟩
  rw [hpair] at hfst
  cases o with
  | none => rfl
  | some g =>
    have hsome : some g = dbGetGroupByGroupId db msg.chatId := hfst
    rcases hden with hnone | ⟨g2, hg2, hinact⟩ | hstatus
    · rw [← hsome] at hnone
      exact absurd hnone (by simp)
    · rw [← hsome] at hg2
      injection hg2 with h
      subst h
      simp [hinact]
    · by_cases hact : g.isActive = false
      · simp [hact]
      · simp [hact, hstatus]

/-! ### Concrete fixtures for counterexamples and witnesses -/

def exAdminUser : UserInfo :=
  { id := 7, username := some "alice".data, firstName := "Alice".data, isBot := false }

def exTargetUser : UserInfo :=
  { id := 8, username := some "bob".data, firstName := "Bob".data, isBot := false }

def exEnv : PlatformEnv :=
  { resolveUsername := fun _ => none, admins := [], chatTitle := none, chatDescription := none }

def exEmptyCache : CacheState :=
  { whitelist := [], commandsCache := none }

/-- The earlier-created of two enabled direct commands whose names both
occur (as prefixes) in the probe text. -/
def exCmdA : Command :=
  { id := 1, name := "a".data, triggerType := TriggerType.direct,
    actionType := ActionType.unpin_all_messages, description := none,
    isEnabled := true, usageCount := 0, createdAt := 1, updatedAt := 1 }

/-- The later-created of the two. -/
def exCmdB : Command :=
  { id := 2, name := "ab".data, triggerType := TriggerType.direct,
    actionType := ActionType.show_group_info, description := none,
    isEnabled := true, usageCount := 0, createdAt := 2, updatedAt := 2 }

def exCmdDb : DbState :=
  { config := none, groups := [], commands := [exCmdA, exCmdB], logs := [] }

def exMatchText : List Char := "ab 123".data

/-- An enabled reply-trigger command, for the trigger-partition witness. -/
def exReplyCmd : Command :=
  { id := 3, name := "置顶".data, triggerType := TriggerType.reply,
    actionType := ActionType.pin_message, description := none,
    isEnabled := true, usageCount := 0, createdAt := 3, updatedAt := 3 }

def exGroupRow : GroupWhitelist :=
  { id := 11, groupId := "-100123".data, groupTitle := some "测试群".data,
    memberCount := some 5, isActive := true, addedAt := 1 }

def exWlDb : DbState :=
  { config := none, groups := [exGroupRow], commands := [exReplyCmd], logs := [] }

def exEmptyDb : DbState :=
  { config := none, groups := [], commands := [], logs := [] }

/-- A `/id` probe from an administrator in a (non-whitelisted) group. -/
def exIdMsg : IncomingMessage :=
  { chatId := "-100999".data, chatType := ChatType.group,
    chatTitle := some "外部群".data, text := "/id".data, replyTo := none,
    fromUser := exAdminUser, entities := [] }

/-- A non-`/id` probe in the same non-whitelisted group. -/
def exPlainMsg : IncomingMessage :=
  { chatId := "-100999".data, chatType := ChatType.group,
    chatTitle := some "外部群".data, text := "hello".data, replyTo := none,
    fromUser := exAdminUser, entities := [] }

/-- An admin reply `置顶` to message 42 of the whitelisted chat. -/
def exPinMsg : IncomingMessage :=
  { chatId := "-100123".data, chatType := ChatType.supergroup,
    chatTitle := some "测试群".data, text := "置顶".data,
    replyTo := some { messageId := 42, fromUser := some exTargetUser },
    fromUser := exAdminUser, entities := [] }

/-- A create_invite_link command named `/创建邀请`. -/
def exInviteCmd : Command :=
  { id := 4, name := "/创建邀请".data, triggerType := TriggerType.direct,
    actionType := ActionType.create_invite_link, description := none,
    isEnabled := true, usageCount := 0, createdAt := 4, updatedAt := 4 }

/-- The invite request carrying only one integer. -/
def exInviteMsg : IncomingMessage :=
  { chatId := "-100123".data, chatType := ChatType.supergroup,
    chatTitle := some "测试群".data, text := "/创建邀请 10".data, replyTo := none,
    fromUser := exAdminUser, entities := [] }

/-! ### C1 - matcher tie-break order -/

/-- C1, counterexample: two enabled direct commands whose names are
both prefixes of the text; the matcher selects the later-created
`exCmdB` (first in the `created_at DESC` enumeration), not the
earlier-created `exCmdA` the claim requires. -/
theorem matcher_prefers_later_creation_counterexample :
    exCmdA ∈ exCmdDb.commands ∧ exCmdB ∈ exCmdDb.commands ∧
    matchesCmd false exMatchText exCmdA = true ∧
    matchesCmd false exMatchText exCmdB = true ∧
    exCmdA.createdAt < exCmdB.createdAt ∧
    findMatchingCommand (dbGetAllCommands exCmdDb) exMatchText false = some exCmdB ∧
    findMatchingCommand (dbGetAllCommands exCmdDb) exMatchText false ≠ some exCmdA := by
  decide

/-- C1, amended: the matcher is a pure function of the enumeration and
the text (hence deterministic), and whenever two enabled commands of
the active trigger partition both prefix-match the text it selects a
matching command whose creation time is greatest (the store enumerates
`created_at DESC` and the first match wins). -/
theorem matcher_selects_latest_creation (db : DbState) (text : List Char)
    (hasReply : Bool) (c1 c2 : Command)
    (h1 : c1 ∈ db.commands) (h2 : c2 ∈ db.commands)
    (m1 : matchesCmd hasReply text c1 = true) (m2 : matchesCmd hasReply text c2 = true) :
    ∃ sel, findMatchingCommand (dbGetAllCommands db) text hasReply = some sel ∧
      matchesCmd hasReply text sel = true ∧ sel ∈ db.commands ∧
      ∀ c ∈ db.commands, matchesCmd hasReply text c = true →
        c.createdAt ≤ sel.createdAt := by
  have hperm : ∀ x : Command, x ∈ dbGetAllCommands db ↔ x ∈ db.commands :=
    fun x => List.mem_insertionSort cmdOrder
  have hsort : List.Sorted cmdOrder (dbGetAllCommands db) :=
    List.sorted_insertionSort cmdOrder db.commands
  rw [findMatchingCommand_eq_find]
  cases hf : (dbGetAllCommands db).find? (matchesCmd hasReply text) with
  | none =>
    exfalso
    have hnone := List.find?_eq_none.mp hf c1 ((hperm c1).mpr h1)
    exact hnone (by simpa using m1)
  | some sel =>
    refine ⟨sel, rfl, ?_, ?_, ?_⟩
    · simpa using List.find?_some hf
    · exact (hperm sel).mp (List.mem_of_find?_eq_some hf)
    · intro c hc hm
      exact find?_sorted_createdAt_ge hsort hf c ((hperm c).mpr hc) hm

/-- C1, witness: the amended theorem at the concrete two-command store. -/
theorem matcher_selects_latest_creation_witness :
    ∃ sel, findMatchingCommand (dbGetAllCommands exCmdDb) exMatchText false = some sel ∧
      matchesCmd false exMatchText sel = true ∧ sel ∈ exCmdDb.commands ∧
      ∀ c ∈ exCmdDb.commands, matchesCmd false exMatchText c = true →
        c.createdAt ≤ sel.createdAt :=
  matcher_selects_latest_creation exCmdDb exMatchText false exCmdA exCmdB
    (by decide) (by decide) (by decide) (by decide)

/-! ### C6 - trigger-type partitioning -/

/-- C6: a reply-trigger command is never selected for a message without
reply context, and a direct-trigger command is never selected for a
message with reply context, whatever the text and command list. -/
theorem trigger_partition_respected (cmds : List Command) (text : List Char)
    (c : Command) :
    (c.triggerType = TriggerType.reply →
      findMatchingCommand cmds text false ≠ some c) ∧
    (c.triggerType = TriggerType.direct →
      findMatchingCommand cmds text true ≠ some c) := by
  constructor
  · intro hr hf
    have hp : matchesCmd false text c = true := by
      rw [findMatchingCommand_eq_find] at hf
      simpa using List.find?_some hf
    have : c.triggerType = TriggerType.direct := by
      have := (Bool.and_eq_true _ _).mp ((Bool.and_eq_true _ _).mp hp).1
      simpa [matchesCmd] using this.2
    rw [hr] at this
    cases this
  · intro hd hf
    have hp : matchesCmd true text c = true := by
      rw [findMatchingCommand_eq_find] at hf
      simpa using List.find?_some hf
    have : c.triggerType = TriggerType.reply := by
      have := (Bool.and_eq_true _ _).mp ((Bool.and_eq_true _ _).mp hp).1
      simpa [matchesCmd] using this.2
    rw [hd] at this
    cases this

/-- C6, witness: the reply-trigger pin command is not selected for a
reply-free `置顶` message even though its name matches the text. -/
theorem trigger_partition_respected_witness :
    findMatchingCommand [exReplyCmd] "置顶".data false ≠ some exReplyCmd :=
  (trigger_partition_respected [exReplyCmd] "置顶".data exReplyCmd).1 (by decide)

/-! ### C5 - authorization denials are silent -/

/-- C5, counterexample: the claim promises a silent no-op for every
text in an unauthorized chat, but a `/id` message from a group
administrator is answered even though the chat has no whitelist entry
- the `/id` branch runs before the whitelist gate. -/
theorem denial_not_silent_for_id_counterexample :
    dbGetGroupByGroupId exEmptyDb exIdMsg.chatId = none ∧
    (textMessageHandler exEmptyDb exEmptyCache 0 exEnv exIdMsg
        MemberStatus.administrator).1.replies ≠ [] := by
  constructor
  · decide
  · decide

/-- C5, amended: for every text other than exactly `/id`, if the store
(seen through a coherent cache) has no whitelist entry for the chat,
or the entry has isActive=false, or the sender's reported status is
neither creator nor administrator, the update is a silent no-op: no
reply, no log row, no platform action, no usage increment. -/
theorem unauthorized_text_silent (db : DbState) (cache : CacheState) (now : Nat)
    (env : PlatformEnv) (msg : IncomingMessage) (senderStatus : MemberStatus)
    (hcoh : CacheCoherent cache db)
    (htext : msg.text ≠ "/id".data)
    (hden : dbGetGroupByGroupId db msg.chatId = none ∨
      (∃ g, dbGetGroupByGroupId db msg.chatId = some g ∧ g.isActive = false) ∨
      (senderStatus ≠ MemberStatus.creator ∧ senderStatus ≠ MemberStatus.administrator)) :
    (textMessageHandler db cache now env msg senderStatus).1 = Effects.empty :=
  denied_text_silent_aux db cache now env msg senderStatus hcoh htext hden

/-- C5, witness: a plain message in a chat without a whitelist entry is
dropped silently. -/
theorem unauthorized_text_silent_witness :
    (textMessageHandler exEmptyDb exEmptyCache 0 exEnv exPlainMsg
        MemberStatus.administrator).1 = Effects.empty :=
  unauthorized_text_silent exEmptyDb exEmptyCache 0 exEnv exPlainMsg
    MemberStatus.administrator
    (fun e he => absurd he (List.not_mem_nil e))
    (by decide)
    (Or.inl (by decide))

/-! ### C10 - the /id handler runs before the whitelist gate -/

/-- C10: (i) a message whose text is exactly `/id`, sent in a group or
supergroup by a sender of status creator or administrator, is answered
with the chat id and title whatever the whitelist and cache state -
and produces no log, no platform action, no increment; (ii) no other
text is handled before the whitelist gate: any other text in a chat
without a whitelist entry (coherent cache) is a silent no-op. -/
theorem id_handler_before_whitelist :
    (∀ (db : DbState) (cache : CacheState) (now : Nat) (env : PlatformEnv)
       (msg : IncomingMessage) (senderStatus : MemberStatus),
       msg.text = "/id".data →
       (msg.chatType = ChatType.group ∨ msg.chatType = ChatType.supergroup) →
       (senderStatus = MemberStatus.creator ∨ senderStatus = MemberStatus.administrator) →
       (textMessageHandler db cache now env msg senderStatus).1 =
         { Effects.empty with
           replies := [ReplyMsg.text (idInfoText msg.chatId msg.chatTitle)] }) ∧
    (∀ (db : DbState) (cache : CacheState) (now : Nat) (env : PlatformEnv)
       (msg : IncomingMessage) (senderStatus : MemberStatus),
       CacheCoherent cache db →
       msg.text ≠ "/id".data →
       dbGetGroupByGroupId db msg.chatId = none →
       (textMessageHandler db cache now env msg senderStatus).1 = Effects.empty) := by
  constructor
  · intro db cache now env msg senderStatus htext hchat hstatus
    unfold textMessageHandler
    rw [if_pos htext]
    unfold idHandlerEffects
    rcases hchat with hg | hg <;> rw [hg] <;> simp [hstatus]
  · intro db cache now env msg senderStatus hcoh htext hnone
    exact denied_text_silent_aux db cache now env msg senderStatus hcoh htext (Or.inl hnone)

/-- C10, witness: the concrete `/id` probe is answered in the
non-whitelisted group, and the concrete plain probe is not. -/
theorem id_handler_before_whitelist_witness :
    (textMessageHandler exEmptyDb exEmptyCache 0 exEnv exIdMsg
        MemberStatus.administrator).1 =
      { Effects.empty with
        replies := [ReplyMsg.text (idInfoText exIdMsg.chatId exIdMsg.chatTitle)] } ∧
    (textMessageHandler exEmptyDb exEmptyCache 0 exEnv exPlainMsg
        MemberStatus.creator).1 = Effects.empty := by
  constructor
  · exact id_handler_before_whitelist.1 exEmptyDb exEmptyCache 0 exEnv exIdMsg
      MemberStatus.administrator rfl (Or.inl rfl) (Or.inr rfl)
  · exact id_handler_before_whitelist.2 exEmptyDb exEmptyCache 0 exEnv exPlainMsg
      MemberStatus.creator (fun e he => absurd he (List.not_mem_nil e)) (by decide) (by decide)

/-! ### C7 - create_invite_link parameter validation -/

/-- C7: when the message text of a create_invite_link dispatch has no
`(\d+)\s+(\d+)` match (no two space-separated integers), the handler
emits exactly the usage-format reply: no platform call (in particular
no link creation), no log row of any status, no increment. -/
theorem invite_link_missing_params (now : Nat) (env : PlatformEnv)
    (msg : IncomingMessage) (cmd : Command)
    (hact : cmd.actionType = ActionType.create_invite_link)
    (hparse : findDigitPair msg.text = none) :
    handleDirectCommand now env msg cmd =
      { Effects.empty with replies := [ReplyMsg.text (inviteUsageText cmd.name)] } := by
  unfold handleDirectCommand
  rw [hact, hparse]

/-- C7, witness: `/创建邀请 10` carries a single integer, so no link is
created and the usage reply is sent. -/
theorem invite_link_missing_params_witness :
    handleDirectCommand 0 exEnv exInviteMsg exInviteCmd =
      { Effects.empty with replies := [ReplyMsg.text (inviteUsageText exInviteCmd.name)] } :=
  invite_link_missing_params 0 exEnv exInviteMsg exInviteCmd rfl (by decide)

/-! ### C2 - usage counter on successful dispatch -/

/-- C2, code evaluation: no branch of either dispatcher ever issues a
usage-counter increment - `incrementCommandUsage` is not called on the
dispatch path - while the concrete successful pin dispatch does write
exactly one success log row. The claimed increment by 1 therefore
never happens. -/
theorem dispatch_never_increments_usage :
    (∀ (now : Nat) (msg : IncomingMessage) (cmd : Command),
      (handleReplyCommand now msg cmd).increments = []) ∧
    (∀ (now : Nat) (env : PlatformEnv) (msg : IncomingMessage) (cmd : Command),
      (handleDirectCommand now env msg cmd).increments = []) ∧
    (handleReplyCommand 0 exPinMsg exReplyCmd).increments = [] ∧
    ((handleReplyCommand 0 exPinMsg exReplyCmd).logs.filter
        (fun l => decide (l.status = LogStatus.success))).length = 1 ∧
    (handleReplyCommand 0 exPinMsg exReplyCmd).calls =
      [PlatformCall.pinMessage 42] := by
  refine ⟨?_, ?_, by decide, by decide, by decide⟩
  · intro now msg cmd
    unfold handleReplyCommand
    cases msg.replyTo with
    | none => rfl
    | some rep =>
      dsimp only
      cases cmd.actionType <;> dsimp only <;>
        first
          | rfl
          | (cases rep.fromUser <;> rfl)
  · intro now env msg cmd
    unfold handleDirectCommand
    cases cmd.actionType <;> dsimp only <;> (repeat' split) <;> rfl

/-! ### C9 - membership transition classification -/

/-- C9: in a whitelisted active chat (seen through a coherent cache)
the membership handler classifies exactly as: a `(left|kicked) →
(member|administrator|creator)` transition is a JOIN - with invite
metadata it sends the welcome message and logs userName = extracted
inviter and targetUserName = new member, without it it logs
targetUserName only and sends nothing; `member → left` is a LEAVE
logged with targetUserName and no userName; `member → kicked` is a
REMOVED logged with userName = the event's actor; every other
transition emits nothing. -/
theorem chat_member_classification (db : DbState) (cache : CacheState) (now : Nat)
    (upd : ChatMemberUpdate) (g : GroupWhitelist)
    (hcoh : CacheCoherent cache db)
    (hwl : dbGetGroupByGroupId db upd.chatId = some g)
    (hact : g.isActive = true) :
    (isJoiningB upd.oldStatus upd.newStatus = true →
      (∀ il, upd.inviteLink = some il →
        (chatMemberHandler db cache now upd).1 =
          { Effects.empty with
            replies := [ReplyMsg.text
              (welcomeText (displayName upd.member) (extractCreatorInfo il))]
            logs := [{ action := "成员加入".data
                       details := "👥 通过邀请链接加入 | 邀请人: ".data ++ extractCreatorInfo il
                       userName := some (extractCreatorInfo il)
                       groupId := some upd.chatId
                       groupTitle := upd.chatTitle
                       targetUserName := some (displayName upd.member)
                       status := LogStatus.success
                       timestamp := now }] }) ∧
      (upd.inviteLink = none →
        (chatMemberHandler db cache now upd).1 =
          { Effects.empty with
            logs := [{ action := "成员加入".data
                       details := "👥 新成员加入群组".data
                       userName := none
                       groupId := some upd.chatId
                       groupTitle := upd.chatTitle
                       targetUserName := some (displayName upd.member)
                       status := LogStatus.success
                       timestamp := now }] })) ∧
    (isLeavingB upd.oldStatus upd.newStatus = true →
      (chatMemberHandler db cache now upd).1 =
        { Effects.empty with
          logs := [{ action := "成员退出".data
                     details := "👋 成员主动退出群组".data
                     userName := none
                     groupId := some upd.chatId
                     groupTitle := upd.chatTitle
                     targetUserName := some (displayName upd.member)
                     status := LogStatus.success
                     timestamp := now }] }) ∧
    (isKickedB upd.oldStatus upd.newStatus = true →
      (chatMemberHandler db cache now upd).1 =
        { Effects.empty with
          logs := [{ action := "成员被移除".data
                     details := "🚫 成员被移除出群组".data
                     userName := some (displayName upd.actor)
                     groupId := some upd.chatId
                     groupTitle := upd.chatTitle
                     targetUserName := some (displayName upd.member)
                     status := LogStatus.success
                     timestamp := now }] }) ∧
    (isJoiningB upd.oldStatus upd.newStatus = false →
      isLeavingB upd.oldStatus upd.newStatus = false →
      isKickedB upd.oldStatus upd.newStatus = false →
      (chatMemberHandler db cache now upd).1 = Effects.empty) := by
  have hfst := getWhitelistedGroup_fst_of_coherent cache db now upd.chatId hcoh
  unfold chatMemberHandler
  rcases hpair : getWhitelistedGroup cache db now upd.chatId with ⟨o, cache1⟩
  rw [hpair] at hfst
  have ho : o = some g := by
    have h1 : o = dbGetGroupByGroupId db upd.chatId := hfst
    rw [h1, hwl]
  subst ho
  dsimp only
  rw [hact]
  refine ⟨?_, ?_, ?_, ?_⟩
  · intro hj
    constructor
    · intro il hil
      simp only [hj, hil]
      rfl
    · intro hil
      simp only [hj, hil]
      rfl
  · intro hl
    have hml := hl
    unfold isLeavingB at hml
    simp only [Bool.and_eq_true, decide_eq_true_eq] at hml
    have hj : isJoiningB upd.oldStatus upd.newStatus = false := by
      simp [isJoiningB, hml.1]
    simp only [hj, hl]
    rfl
  · intro hk
    have hmk := hk
    unfold isKickedB at hmk
    simp only [Bool.and_eq_true, decide_eq_true_eq] at hmk
    have hj : isJoiningB upd.oldStatus upd.newStatus = false := by
      simp [isJoiningB, hmk.1]
    have hl : isLeavingB upd.oldStatus upd.newStatus = false := by
      simp [isLeavingB, hmk.2]
    simp only [hj, hl, hk]
    rfl
  · intro hj hl hk
    simp only [hj, hl, hk]
    rfl

/-- The invite link of the witness join, annotated `@alice创建`. -/
def exInvite : InviteLinkInfo :=
  { name := some "@alice创建".data, creator := none }

/-- A join via the annotated invite link into the whitelisted chat. -/
def exJoinUpd : ChatMemberUpdate :=
  { chatId := "-100123".data, chatTitle := some "测试群".data,
    oldStatus := MemberStatus.left, newStatus := MemberStatus.member,
    inviteLink := some exInvite, member := exTargetUser, actor := exAdminUser }

/-- C9, witness: the concrete invite-link join produces the welcome
message and the join log row naming inviter and new member. -/
theorem chat_member_classification_witness :
    (chatMemberHandler exWlDb exEmptyCache 5 exJoinUpd).1 =
      { Effects.empty with
        replies := [ReplyMsg.text
          (welcomeText (displayName exJoinUpd.member) (extractCreatorInfo exInvite))]
        logs := [{ action := "成员加入".data
                   details := "👥 通过邀请链接加入 | 邀请人: ".data ++ extractCreatorInfo exInvite
                   userName := some (extractCreatorInfo exInvite)
                   groupId := some exJoinUpd.chatId
                   groupTitle := exJoinUpd.chatTitle
                   targetUserName := some (displayName exJoinUpd.member)
                   status := LogStatus.success
                   timestamp := 5 }] } :=
  ((chat_member_classification exWlDb exEmptyCache 5 exJoinUpd exGroupRow
      (fun e he => absurd he (List.not_mem_nil e)) (by decide) rfl).1
    (by decide)).1 exInvite rfl

/-! ### C3 - the retention sweep and system-scoped rows -/

/-- A system-scoped (groupId = null) log row far older than 10 days. -/
def exOldSystemLog : ActivityLog :=
  { action := "机器人启动".data, details := [], userName := none, groupId := none,
    groupTitle := none, targetUserName := none, status := LogStatus.success,
    timestamp := 0 }

def exLogsDb : DbState :=
  { config := none, groups := [], commands := [], logs := [exOldSystemLog] }

/-- The sweep instant of the retention fixtures: day 100. -/
def exSweepNow : Nat := 100 * msPerDay

/-- C3, counterexample: the sweep's bulk delete has no groupId filter,
so a system-scoped row (groupId = null) older than 10 days is removed,
contradicting the claimed exemption. -/
theorem sweep_removes_system_rows_counterexample :
    exOldSystemLog.groupId = none ∧
    exOldSystemLog ∈ exLogsDb.logs ∧
    exOldSystemLog.timestamp < exSweepNow - 10 * msPerDay ∧
    (cleanOldLogs exLogsDb exSweepNow 10).1.logs = [] := by
  refine ⟨rfl, by decide, by decide, by decide⟩

/-- C3, amended: after the sweep with a 10-day cutoff no row older
than the cutoff remains - regardless of groupId, system-scoped rows
included - and every row not older than the cutoff is retained. -/
theorem sweep_purges_all_old_rows (db : DbState) (now : Nat) :
    (∀ l ∈ (cleanOldLogs db now 10).1.logs, ¬ l.timestamp < now - 10 * msPerDay) ∧
    (∀ l ∈ db.logs, ¬ l.timestamp < now - 10 * msPerDay →
      l ∈ (cleanOldLogs db now 10).1.logs) := by
  constructor
  · intro l hl
    have hmem := (List.mem_filter.mp hl).2
    simpa using hmem
  · intro l hl h
    exact List.mem_filter.mpr ⟨hl, by simpa using h⟩

/-- C3, witness: the amended sweep behavior at the concrete store. -/
theorem sweep_purges_all_old_rows_witness :
    (∀ l ∈ (cleanOldLogs exLogsDb exSweepNow 10).1.logs,
      ¬ l.timestamp < exSweepNow - 10 * msPerDay) ∧
    (∀ l ∈ exLogsDb.logs, ¬ l.timestamp < exSweepNow - 10 * msPerDay →
      l ∈ (cleanOldLogs exLogsDb exSweepNow 10).1.logs) :=
  sweep_purges_all_old_rows exLogsDb exSweepNow

/-! ### C4 - cache invalidation on configuration change -/

/-- C4, code evaluation: the configuration-change flow (stop, then
start with the new token, with or without clearing the whitelist)
leaves both cache maps exactly as they were - `clearCache`, which
would empty them, is never invoked on this path - so the claimed
wholesale invalidation never happens. -/
theorem config_change_preserves_cache (token : List Char) (botInfo : UserInfo)
    (clearGroups : Bool) (st : SystemState) (now : Nat) :
    (postBotConfig token botInfo clearGroups st now).cache = st.cache ∧
    (clearCache st.cache).whitelist = [] ∧
    (clearCache st.cache).commandsCache = none := by
  refine ⟨?_, rfl, rfl⟩
  cases clearGroups <;> cases hc : st.db.config <;>
    simp [postBotConfig, stopBot, startBot, dbCreateLog, hc]

/-! ### C8 - clearing the whitelist on token rotation -/

theorem startBot_db_groups (t : List Char) (b : UserInfo) (st : SystemState)
    (now : Nat) : (startBot t b st now).db.groups = st.db.groups := by
  cases hc : st.db.config <;> simp [startBot, dbCreateLog, hc]

theorem startBot_db_logs (t : List Char) (b : UserInfo) (st : SystemState)
    (now : Nat) : ∃ e : ActivityLog, e.groupId = none ∧
      (startBot t b st now).db.logs = st.db.logs ++ [e] := by
  cases hc : st.db.config <;>
    refine ⟨{ action := "机器人启动".data
              details := "Bot @".data ++ jsFalsyOr b.username [] ++ " 已成功启动".data
              userName := none
              groupId := none
              groupTitle := none
              targetUserName := none
              status := LogStatus.success
              timestamp := now }, rfl, ?_⟩ <;>
    simp [startBot, dbCreateLog, hc]

/-- C8: after the token rotation with clearGroups, no whitelist row
remains, no log row with a non-null groupId remains, and every
system-scoped (groupId = null) row that existed before is retained. -/
theorem clear_whitelist_purges_group_rows (token : List Char) (botInfo : UserInfo)
    (st : SystemState) (now : Nat) :
    (postBotConfig token botInfo true st now).db.groups = [] ∧
    (∀ l ∈ (postBotConfig token botInfo true st now).db.logs, l.groupId = none) ∧
    (∀ l ∈ st.db.logs, l.groupId = none →
      l ∈ (postBotConfig token botInfo true st now).db.logs) := by
  have hdb : ∃ e : ActivityLog, e.groupId = none ∧
      (postBotConfig token botInfo true st now).db =
        dbCreateLog
          (dbDeleteAllGroupLogs
            (deleteGroupsLoop
              (dbGetAllGroups (startBot token botInfo (stopBot st) now).db)
              (startBot token botInfo (stopBot st) now).db)).1 e :=
    ⟨_, rfl, rfl⟩
  obtain ⟨rot, hrotg, heq⟩ := hdb
  obtain ⟨startup, hstartg, hstlogs⟩ := startBot_db_logs token botInfo (stopBot st) now
  refine ⟨?_, ?_, ?_⟩
  · rw [heq]
    show (deleteGroupsLoop _ _).groups = []
    apply deleteGroupsLoop_groups_eq_nil
    intro g hg
    exact ⟨g, (List.mem_insertionSort groupOrder).mpr hg, rfl⟩
  · rw [heq]
    intro l hl
    rcases List.mem_append.mp hl with hleft | hright
    · have := (List.mem_filter.mp hleft).2
      simpa [Option.isNone_iff_eq_none] using this
    · rw [List.mem_singleton.mp hright]
      exact hrotg
  · intro l hl hnone
    rw [heq]
    apply List.mem_append_left
    apply List.mem_filter.mpr
    refine ⟨?_, by simp [Option.isNone_iff_eq_none, hnone]⟩
    rw [deleteGroupsLoop_logs, hstlogs]
    exact List.mem_append_left _ hl

/-- The pre-rotation state of the C8 witness: one whitelisted group,
one group-scoped log row and one system-scoped log row. -/
def exC8GroupLog : ActivityLog :=
  { action := "置顶".data, details := [], userName := some "@alice".data,
    groupId := some "-100123".data, groupTitle := some "测试群".data,
    targetUserName := some "@bob".data, status := LogStatus.success, timestamp := 3 }

def exC8SysLog : ActivityLog :=
  { action := "机器人启动".data, details := [], userName := none, groupId := none,
    groupTitle := none, targetUserName := none, status := LogStatus.success,
    timestamp := 4 }

def exC8State : SystemState :=
  { db := { config := none, groups := [exGroupRow], commands := [],
            logs := [exC8GroupLog, exC8SysLog] },
    cache := exEmptyCache, bot := none }

/-- C8, witness: the rotation with clearGroups at the concrete state. -/
theorem clear_whitelist_purges_group_rows_witness :
    (postBotConfig "tok2".data exAdminUser true exC8State 9).db.groups = [] ∧
    (∀ l ∈ (postBotConfig "tok2".data exAdminUser true exC8State 9).db.logs,
      l.groupId = none) ∧
    (∀ l ∈ exC8State.db.logs, l.groupId = none →
      l ∈ (postBotConfig "tok2".data exAdminUser true exC8State 9).db.logs) :=
  clear_whitelist_purges_group_rows "tok2".data exAdminUser exC8State 9

end TgBot
